import Mathlib

/-!
Verification of the Star Wars survey dashboard (`app.py`).

The script loads a CSV file with a two-delimiter fallback (`load_data`),
cleans the resulting table in four steps (drop "Unnamed" columns, rename
verbose headers, fill missing values, convert object columns to pandas
string dtype), and then renders view sections guarded by simple
column-presence conditionals.

We embed the data model shallowly: a frame is a list of named columns,
each column either numeric (list of optional rationals, `none` standing
for NaN) or object (list of optional strings, with a flag recording a
later `astype("string")` conversion).  CSV parsing itself is library
code, so `load_data` is parameterised by a reader oracle
`read : delimiter → filepath → Except errorMessage Frame`.
-/

set_option autoImplicit false

namespace StarWarsSurvey

/-- The contents of one pandas column: numeric dtype (entries are `none`
for NaN) or object dtype (entries are `none` for NaN); `pandasString`
records whether `astype("string")` has been applied. -/
inductive ColData where
  | numeric (vals : List (Option Rat))
  | object (vals : List (Option String)) (pandasString : Bool)
deriving DecidableEq

/-- A named column of a frame. -/
structure Col where
  name : String
  data : ColData
deriving DecidableEq

/-- A pandas DataFrame: an ordered list of named columns. -/
structure Frame where
  cols : List Col
deriving DecidableEq

/-- `df.shape[1]`: the number of columns. -/
def ncols (df : Frame) : Nat := df.cols.length

/-- `df.columns` as a list of names. -/
def colNames (df : Frame) : List String := df.cols.map Col.name

/-- `load_data` from `app.py`: read with a tab delimiter; if the result
has exactly one column, re-read with a comma delimiter; any exception in
either read is surfaced as a UI error and yields `None`. -/
def load_data (read : String → String → Except String Frame)
    (filepath : String) : Option Frame :=
  match read "\t" filepath with
  | Except.error _ => none
  | Except.ok df =>
    if ncols df = 1 then
      match read "," filepath with
      | Except.error _ => none
      | Except.ok df2 => some df2
    else some df

/-! ### Cleaning step 1: drop unwanted columns -/

/-- `[col for col in df_clean.columns if col.startswith("Unnamed")]`. -/
def unnamed_cols (df : Frame) : List String :=
  (colNames df).filter (fun n => n.startsWith "Unnamed")

/-- `df.drop(columns=names)`: remove every column whose name occurs in
`names`. -/
def dropColumns (df : Frame) (names : List String) : Frame :=
  ⟨df.cols.filter (fun c => !(names.contains c.name))⟩

/-- The "Drop Unwanted Columns" tab: drop the `Unnamed` columns. -/
def dropStep (df : Frame) : Frame := dropColumns df (unnamed_cols df)

/-! ### Cleaning step 2: rename columns -/

/-- The fixed five-entry rename mapping of `app.py`. -/
def rename_mapping : List (String × String) :=
  [("Have you seen any of the 6 films in the Star Wars franchise?",
    "seen_films"),
   ("Do you consider yourself to be a fan of the Star Wars film franchise?",
    "is_fan"),
   ("Which of the following Star Wars films have you seen? Please select all that apply.",
    "films_seen"),
   ("Please rank the Star Wars films in order of preference with 1 being your favorite film in the franchise and 6 being your least favorite film.",
    "film_ranking"),
   ("Please state whether you view the following characters favorably, unfavorably, or are unfamiliar with him/her.",
    "character_opinions")]

/-- `df.rename(columns=m)` applied to one column name: the mapped value
when the name is a key of `m`, the name itself otherwise. -/
def applyRename (m : List (String × String)) (n : String) : String :=
  match m.lookup n with
  | some v => v
  | none => n

/-- `df.rename(columns=m)`: rename every column by the mapping, leaving
data untouched. -/
def renameCols (df : Frame) (m : List (String × String)) : Frame :=
  ⟨df.cols.map (fun c => ⟨applyRename m c.name, c.data⟩)⟩

/-- `{k: v for k, v in rename_mapping.items() if k in df_clean.columns}`. -/
def presentMapping (df : Frame) : List (String × String) :=
  rename_mapping.filter (fun kv => (colNames df).contains kv.1)

/-- The "Rename Columns" tab: rename by the mapping restricted to keys
actually present as columns. -/
def renameStep (df : Frame) : Frame := renameCols df (presentMapping df)

/-! ### Cleaning step 3: handle missing data -/

/-- Insert a rational into a sorted list, keeping it sorted. -/
def insertSorted (x : Rat) : List Rat → List Rat
  | [] => [x]
  | y :: ys => if x ≤ y then x :: y :: ys else y :: insertSorted x ys

/-- Insertion sort on rationals. -/
def sortRats : List Rat → List Rat
  | [] => []
  | x :: xs => insertSorted x (sortRats xs)

/-- `Series.median()` for a numeric column: NaN entries are skipped; the
median of the remaining values is the middle value (odd count) or the
mean of the two middle values (even count); `none` when every entry is
NaN (pandas returns NaN). -/
def median (vals : List (Option Rat)) : Option Rat :=
  let xs := sortRats (vals.filterMap id)
  if xs.length = 0 then none
  else if xs.length % 2 = 1 then xs.get? (xs.length / 2)
  else
    match xs.get? (xs.length / 2 - 1), xs.get? (xs.length / 2) with
    | some a, some b => some ((a + b) / 2)
    | _, _ => none

/-- The body of the fill loop for one column: numeric columns get
`fillna(median)` (a NaN fill value leaves NaN in place), object columns
get `fillna("Not Specified")`. -/
def fillColData : ColData → ColData
  | ColData.numeric vals =>
      ColData.numeric (vals.map (fun v =>
        if v.isSome then v else median vals))
  | ColData.object vals b =>
      ColData.object (vals.map (fun v => some (v.getD "Not Specified"))) b

/-- The "Handle Missing Data" tab: fill every column. -/
def handleMissingStep (df : Frame) : Frame :=
  ⟨df.cols.map (fun c => ⟨c.name, fillColData c.data⟩)⟩

/-! ### Cleaning step 4: convert object columns to string dtype -/

/-- The "Final Cleaned Data" tab: `astype("string")` on every object
column. -/
def astypeStringStep (df : Frame) : Frame :=
  ⟨df.cols.map (fun c =>
    match c.data with
    | ColData.object vals _ => ⟨c.name, ColData.object vals true⟩
    | d => ⟨c.name, d⟩)⟩

/-! ### App state: `df_raw` and `df_clean` through the cleaning tabs -/

/-- The script state: the frame as loaded (`df_raw`) and the working
copy (`df_clean`). -/
structure AppState where
  df_raw : Frame
  df_clean : Frame
deriving DecidableEq

/-- `df_clean = df_raw.copy()`: the working copy starts as an
independent copy of the loaded frame. -/
def initState (raw : Frame) : AppState := ⟨raw, raw⟩

/-- The "Drop Unwanted Columns" tab mutates only `df_clean`. -/
def dropTab (s : AppState) : AppState :=
  { s with df_clean := dropStep s.df_clean }

/-- The "Rename Columns" tab mutates only `df_clean`. -/
def renameTab (s : AppState) : AppState :=
  { s with df_clean := renameStep s.df_clean }

/-- The "Handle Missing Data" tab mutates only `df_clean`. -/
def missingTab (s : AppState) : AppState :=
  { s with df_clean := handleMissingStep s.df_clean }

/-- The "Final Cleaned Data" tab mutates only `df_clean`. -/
def finalTab (s : AppState) : AppState :=
  { s with df_clean := astypeStringStep s.df_clean }

/-- The whole cleaning pipeline of Tab 1, starting from the copy. -/
def cleaningPipeline (raw : Frame) : AppState :=
  finalTab (missingTab (renameTab (dropTab (initState raw))))

/-- `df.head(n)` on one column. -/
def takeRows (n : Nat) : ColData → ColData
  | ColData.numeric vals => ColData.numeric (vals.take n)
  | ColData.object vals b => ColData.object (vals.take n) b

/-- `df.head(n)`: the first `n` rows of every column. -/
def headFrame (df : Frame) (n : Nat) : Frame :=
  ⟨df.cols.map (fun c => ⟨c.name, takeRows n c.data⟩)⟩

/-- The "Original Data" tab displays `df_raw.head(10)`. -/
def originalDataView (s : AppState) : Frame := headFrame s.df_raw 10

/-- The top of the script: load, stop when `df_raw is None`, otherwise
run the cleaning pipeline on a copy. -/
def run_app (read : String → String → Except String Frame)
    (filepath : String) : Option AppState :=
  match load_data read filepath with
  | none => none
  | some raw => some (cleaningPipeline raw)

/-! ### View sections guarded by column presence -/

/-- `df_clean.select_dtypes(include=["number"]).columns`. -/
def numericColNames (df : Frame) : List String :=
  df.cols.filterMap (fun c =>
    match c.data with
    | ColData.numeric _ => some c.name
    | ColData.object _ _ => none)

/-- Outcome of the KMeans clustering branch. -/
inductive ClusterOutcome where
  | clusteringShown
  | notEnoughNumeric
deriving DecidableEq

/-- The clustering branch: `if len(numeric_cols) >= 2` run KMeans,
otherwise write "Not enough numeric columns for clustering.". -/
def clusteringBranch (df : Frame) : ClusterOutcome :=
  if 2 ≤ (numericColNames df).length then ClusterOutcome.clusteringShown
  else ClusterOutcome.notEnoughNumeric

/-- `default_y_cluster = numeric_cols[1] if len(numeric_cols) > 1 else
numeric_cols[0]`, as an optional value (`none` marks an out-of-bounds
access). -/
def default_y_cluster (df : Frame) : Option String :=
  if 1 < (numericColNames df).length then (numericColNames df).get? 1
  else (numericColNames df).get? 0

/-! ### Logistic-regression target construction -/

/-- The whitespace characters removed by Python's `str.strip()`. -/
def isPyWhitespace (c : Char) : Bool :=
  c = ' ' || c = '\t' || c = '\n' || c = '\r' || c = '\x0b' || c = '\x0c'

/-- Python's `str.strip()`: remove leading and trailing whitespace. -/
def pyStrip (s : String) : String :=
  ⟨((s.data.dropWhile isPyWhitespace).reverse.dropWhile
      isPyWhitespace).reverse⟩

/-- Python's `str.lower()` (ASCII range). -/
def pyLower (s : String) : String := ⟨s.data.map Char.toLower⟩

/-- `lambda x: 1 if str(x).strip().lower() == "yes" else 0`. -/
def is_fan_binary (x : String) : Nat :=
  if pyLower (pyStrip x) = "yes" then 1 else 0

/-- The values of the `is_fan` column, when it exists as an object
column. -/
def isFanValues (df : Frame) : Option (List (Option String)) :=
  match df.cols.find? (fun c => c.name == "is_fan") with
  | some c =>
    match c.data with
    | ColData.object vals _ => some vals
    | ColData.numeric _ => none
  | none => none

/-- `df_model = df.dropna(subset=["is_fan"])` followed by
`df_model["is_fan"].apply(is_fan_binary)`: labels of the rows whose
`is_fan` answer is not missing. -/
def isFanLabels (df : Frame) : Option (List Nat) :=
  (isFanValues df).map (fun vals => (vals.filterMap id).map is_fan_binary)

/-! ### The predictive-modeling branch and its `df_model` frame -/

/-- A frame with a single column, as produced by a tab parse of a
comma-separated file. -/
def dfOneColW : Frame := ⟨[⟨"only", ColData.object [some "a"] false⟩]⟩

/-- A two-column frame, as produced by a successful parse. -/
def dfTwoColW : Frame :=
  ⟨[⟨"a", ColData.object [some "x"] false⟩, ⟨"b", ColData.numeric [some 1]⟩]⟩

/-- A reader oracle: the tab parse finds one column, the comma parse
finds two. -/
def readW : String → String → Except String Frame :=
  fun delim _ =>
    if delim = "\t" then Except.ok dfOneColW else Except.ok dfTwoColW

/-- A reader oracle whose tab parse raises. -/
def readErrW : String → String → Except String Frame :=
  fun delim _ =>
    if delim = "\t" then Except.error "boom" else Except.ok dfTwoColW

/-- A small frame with one numeric and one object column, both holding
a missing entry. -/
def dfMissW : Frame :=
  ⟨[⟨"num", ColData.numeric [some 1, none, some 3, some 5]⟩,
    ⟨"txt", ColData.object [none, some "hi"] false⟩]⟩

/-- The numeric column of `dfMissW`. -/
def colNumW : Col := ⟨"num", ColData.numeric [some 1, none, some 3, some 5]⟩

/-- The numeric column of `dfMissW` after the fill step: the missing
entry becomes the median of `1, 3, 5`, which is `3`. -/
def colNumFilledW : Col :=
  ⟨"num", ColData.numeric [some 1, some 3, some 3, some 5]⟩

/-- A frame with an `is_fan` column holding assorted answers. -/
def dfFanW : Frame :=
  ⟨[⟨"is_fan",
     ColData.object [some "Yes", some " yes ", none, some "No"] false⟩]⟩

/-- The `is_fan` values of `dfFanW`. -/
def valsFanW : List (Option String) :=
  [some "Yes", some " yes ", none, some "No"]

/-- The labels derived from `dfFanW`: the missing answer is dropped,
"Yes" and " yes " are fans, "No" is not. -/
def labelsFanW : List Nat := [1, 1, 0]

/-- A frame with one verbose survey header and one column outside the
rename mapping. -/
def dfRenameW : Frame :=
  ⟨[⟨"Do you consider yourself to be a fan of the Star Wars film franchise?",
     ColData.object [some "Yes"] false⟩,
    ⟨"Gender", ColData.object [some "F"] false⟩]⟩

/-- The unmapped column of `dfRenameW`. -/
def colGenderW : Col := ⟨"Gender", ColData.object [some "F"] false⟩

/-- A frame with two numeric columns, enough for clustering. -/
def dfNum2W : Frame :=
  ⟨[⟨"x", ColData.numeric [some 1, some 2]⟩,
    ⟨"y", ColData.numeric [some 3, some 4]⟩,
    ⟨"txt", ColData.object [some "a", some "b"] false⟩]⟩

/-! ## Theorems -/

/-- Claim C1: for every file path, `load_data` first parses the file
with a tab delimiter; if and only if the resulting frame has exactly
one column it re-parses with a comma delimiter and returns that second
result, otherwise it returns the tab-parsed frame. -/
theorem load_data_delimiter_fallback
    (read : String → String → Except String Frame) (fp : String) (df : Frame)
    (h : read "\t" fp = Except.ok df) :
    load_data read fp =
      if ncols df = 1 then (read "," fp).toOption else some df := by
  by_cases h1 : ncols df = 1
  · cases h2 : read "," fp <;> simp [load_data, h, h1, h2, Except.toOption]
  · simp [load_data, h, h1]

/-- Witness for C1: a concrete reader whose tab parse yields a
one-column frame. -/
theorem load_data_delimiter_fallback_witness :
    readW "\t" "star_wars.csv" = Except.ok dfOneColW ∧
    load_data readW "star_wars.csv" =
      (if ncols dfOneColW = 1 then (readW "," "star_wars.csv").toOption
       else some dfOneColW) :=
  ⟨rfl, load_data_delimiter_fallback readW "star_wars.csv" dfOneColW rfl⟩

/-- Claim C5: an exception while reading under either delimiter makes
`load_data` return `None` (after surfacing the message), and the
application then stops (`run_app` produces nothing); the cleaning
pipeline itself never fails, so `run_app` stops exactly when
`load_data` failed. -/
theorem load_error_yields_none_and_stop
    (read : String → String → Except String Frame) (fp : String) :
    (load_data read fp = none ↔
      (∃ e, read "\t" fp = Except.error e) ∨
      (∃ df e, read "\t" fp = Except.ok df ∧ ncols df = 1 ∧
        read "," fp = Except.error e)) ∧
    (run_app read fp = none ↔ load_data read fp = none) := by
  constructor
  · cases h1 : read "\t" fp with
    | error e => simp [load_data, h1]
    | ok df =>
      by_cases hn : ncols df = 1
      · cases h2 : read "," fp with
        | error e2 => simp [load_data, h1, hn, h2]
        | ok df2 => simp [load_data, h1, hn, h2]
      · simp [load_data, h1, hn]
  · cases h : load_data read fp <;> simp [run_app, h]

/-- Claim C7: KMeans clustering is invoked exactly when the cleaned
frame has at least two numeric columns, otherwise the "Not enough
numeric columns" message is shown; and under the at-least-two
precondition the `numeric_cols[1]` access for the default Y variable is
in bounds and is the default Y variable. -/
theorem clustering_guard_spec (df : Frame) :
    (clusteringBranch df = ClusterOutcome.clusteringShown ↔
      2 ≤ (numericColNames df).length) ∧
    (clusteringBranch df = ClusterOutcome.notEnoughNumeric ↔
      (numericColNames df).length < 2) ∧
    (2 ≤ (numericColNames df).length →
      ∃ y, (numericColNames df).get? 1 = some y ∧
        default_y_cluster df = some y) := by
  refine ⟨?_, ?_, ?_⟩
  · by_cases h : 2 ≤ (numericColNames df).length
    · simp [clusteringBranch, h]
    · simp [clusteringBranch, h]
  · by_cases h : 2 ≤ (numericColNames df).length
    · simp [clusteringBranch, h]
    · simp [clusteringBranch, h]
      omega
  · intro h
    have h1 : 1 < (numericColNames df).length := h
    refine ⟨(numericColNames df).get ⟨1, h1⟩, List.get?_eq_get h1, ?_⟩
    simp [default_y_cluster, h1, List.get?_eq_get h1]

/-- Witness for C7: a frame with two numeric columns. -/
theorem clustering_guard_spec_witness :
    2 ≤ (numericColNames dfNum2W).length ∧
    (∃ y, (numericColNames dfNum2W).get? 1 = some y ∧
      default_y_cluster dfNum2W = some y) :=
  ⟨by decide, (clustering_guard_spec dfNum2W).2.2 (by decide)⟩

/-- Claim C8: the cleaning pipeline operates on the copy `df_clean`
only, so `df_raw` is unchanged by the whole pipeline; the "Original
Data" view always shows the data exactly as loaded; and the working
frame is the four cleaning steps applied to the copy. -/
theorem cleaning_preserves_df_raw (raw : Frame) :
    (cleaningPipeline raw).df_raw = raw ∧
    originalDataView (cleaningPipeline raw) = headFrame raw 10 ∧
    (cleaningPipeline raw).df_clean =
      astypeStringStep (handleMissingStep (renameStep (dropStep raw))) :=
  ⟨rfl, rfl, rfl⟩

/-- For a column of the frame, membership of its name in the
`unnamed_cols` list is exactly the `startsWith "Unnamed"` test. -/
theorem unnamed_contains_eq (df : Frame) (c : Col) (hc : c ∈ df.cols) :
    (unnamed_cols df).contains c.name = c.name.startsWith "Unnamed" := by
  cases h : c.name.startsWith "Unnamed" with
  | true =>
    have hmem : c.name ∈ unnamed_cols df := by
      unfold unnamed_cols colNames
      exact List.mem_filter.mpr ⟨List.mem_map_of_mem Col.name hc, h⟩
    simpa using hmem
  | false =>
    rw [Bool.eq_false_iff]
    intro htrue
    have hmem : c.name ∈ unnamed_cols df := by simpa using htrue
    have h2 := (List.mem_filter.mp hmem).2
    rw [h] at h2
    exact Bool.false_ne_true h2

/-- Claim C3: the drop step removes exactly the columns whose name
starts with "Unnamed"; every other column is kept, in its original
order. -/
theorem dropStep_drops_exactly_unnamed (df : Frame) :
    (dropStep df).cols =
      df.cols.filter (fun c => !(c.name.startsWith "Unnamed")) ∧
    List.Sublist (dropStep df).cols df.cols ∧
    ∀ c, c ∈ (dropStep df).cols ↔
      (c ∈ df.cols ∧ c.name.startsWith "Unnamed" = false) := by
  have hfe : (dropStep df).cols =
      df.cols.filter (fun c => !(c.name.startsWith "Unnamed")) := by
    unfold dropStep dropColumns
    exact List.filter_congr (fun c hc => by rw [unnamed_contains_eq df c hc])
  refine ⟨hfe, ?_, ?_⟩
  · rw [hfe]; exact List.filter_sublist _
  · intro c
    rw [hfe, List.mem_filter]
    simp

/-- Filtering an association list by a predicate on keys does not
change lookups of keys the predicate accepts. -/
theorem lookup_filter_key (q : String → Bool) (n : String) (hq : q n = true) :
    ∀ m : List (String × String),
      (m.filter (fun kv => q kv.1)).lookup n = m.lookup n := by
  intro m
  induction m with
  | nil => rfl
  | cons kv rest ih =>
    obtain ⟨k, v⟩ := kv
    by_cases hk : n = k
    · subst hk
      simp [List.filter_cons, hq, List.lookup]
    · have hbeq : (n == k) = false := by simp [hk]
      cases hpk : q k <;>
        simp [List.filter_cons, hpk, List.lookup, hbeq, ih]

/-- Claim C4: the rename step renames columns by the fixed five-entry
mapping restricted to the keys present as columns; the restriction
changes nothing, a column whose name is a mapping key gets the short
name, every other column keeps its name, and data and order are
untouched. -/
theorem renameStep_fixed_mapping (df : Frame) :
    (renameStep df).cols =
      df.cols.map (fun c => ⟨applyRename rename_mapping c.name, c.data⟩) ∧
    (∀ c ∈ df.cols, rename_mapping.lookup c.name = none →
      applyRename rename_mapping c.name = c.name) ∧
    (∀ c ∈ df.cols, ∀ v, rename_mapping.lookup c.name = some v →
      applyRename rename_mapping c.name = v) := by
  refine ⟨?_, ?_, ?_⟩
  · unfold renameStep renameCols presentMapping
    apply List.map_congr_left
    intro c hc
    have hcn : (colNames df).contains c.name = true := by
      unfold colNames
      simpa using List.mem_map_of_mem Col.name hc
    have hl := lookup_filter_key (fun k => (colNames df).contains k)
      c.name hcn rename_mapping
    simp only [applyRename]
    rw [hl]
  · intro c _ hnone
    simp [applyRename, hnone]
  · intro c _ v hsome
    simp [applyRename, hsome]

/-- Witness for C4: in a concrete frame, the unmapped column `Gender`
keeps its name. -/
theorem renameStep_fixed_mapping_witness :
    colGenderW ∈ dfRenameW.cols ∧
    rename_mapping.lookup colGenderW.name = none ∧
    applyRename rename_mapping colGenderW.name = colGenderW.name :=
  ⟨by decide, by rfl,
   (renameStep_fixed_mapping dfRenameW).2.1 colGenderW (by decide) (by rfl)⟩

/-- Indexing commutes with `List.map`. -/
theorem get?_map_eq {α β : Type} (f : α → β) :
    ∀ (l : List α) (i : Nat), (l.map f).get? i = (l.get? i).map f := by
  intro l
  induction l with
  | nil => intro i; cases i <;> rfl
  | cons a as ih =>
    intro i
    cases i with
    | zero => rfl
    | succ n => exact ih n

/-- Claim C2: in the handle-missing-data step, a numeric column has
every missing entry replaced by the column's median (for an all-missing
column the median is itself NaN, which is what the entry stays) and
every present entry kept; a non-numeric column has every missing entry
replaced by "Not Specified" and every present entry kept; names, dtypes
and order are untouched. -/
theorem handleMissing_fill_spec (df : Frame) (i : Nat) (c c2 : Col)
    (h : df.cols.get? i = some c)
    (h2 : (handleMissingStep df).cols.get? i = some c2) :
    c2.name = c.name ∧
    (∀ vals, c.data = ColData.numeric vals →
      ∃ vals2, c2.data = ColData.numeric vals2 ∧
        vals2.length = vals.length ∧
        ∀ j, (∀ x, vals.get? j = some (some x) →
            vals2.get? j = some (some x)) ∧
          (vals.get? j = some none → vals2.get? j = some (median vals))) ∧
    (∀ vals b, c.data = ColData.object vals b →
      ∃ vals2, c2.data = ColData.object vals2 b ∧
        vals2.length = vals.length ∧
        ∀ j, (∀ s, vals.get? j = some (some s) →
            vals2.get? j = some (some s)) ∧
          (vals.get? j = some none →
            vals2.get? j = some (some "Not Specified"))) := by
  have hmap : (handleMissingStep df).cols.get? i
      = some ⟨c.name, fillColData c.data⟩ := by
    unfold handleMissingStep
    rw [get?_map_eq, h]
    rfl
  rw [hmap] at h2
  have hc2 : c2 = ⟨c.name, fillColData c.data⟩ := (Option.some.inj h2).symm
  subst hc2
  refine ⟨rfl, ?_, ?_⟩
  · intro vals hv
    refine ⟨vals.map (fun v => if v.isSome then v else median vals),
      ?_, List.length_map _ _, ?_⟩
    · show fillColData c.data = _
      rw [hv]
      rfl
    · intro j
      constructor
      · intro x hx
        rw [get?_map_eq, hx]
        rfl
      · intro hx
        rw [get?_map_eq, hx]
        rfl
  · intro vals b hv
    refine ⟨vals.map (fun v => some (v.getD "Not Specified")),
      ?_, List.length_map _ _, ?_⟩
    · show fillColData c.data = _
      rw [hv]
      rfl
    · intro j
      constructor
      · intro s hs
        rw [get?_map_eq, hs]
        rfl
      · intro hx
        rw [get?_map_eq, hx]
        rfl

/-- Witness for C2: in `dfMissW` the numeric column's missing entry is
filled with the median `2`. -/
theorem handleMissing_fill_spec_witness :
    dfMissW.cols.get? 0 = some colNumW ∧
    (handleMissingStep dfMissW).cols.get? 0 = some colNumFilledW ∧
    colNumFilledW.name = colNumW.name :=
  ⟨rfl, by decide,
   (handleMissing_fill_spec dfMissW 0 colNumW colNumFilledW rfl (by decide)).1⟩

/-- Claim C9: in the logistic-regression target construction, the
derived label of a row is `1` exactly when the `is_fan` value, as a
string, stripped of surrounding whitespace and lowercased, equals
"yes", and `0` otherwise; the filled placeholder "Not Specified" is
labeled `0`. -/
theorem is_fan_binary_spec (df : Frame) (vals : List (Option String))
    (labels : List Nat)
    (h1 : isFanValues df = some vals) (h2 : isFanLabels df = some labels) :
    (∀ k x, (vals.filterMap id).get? k = some x →
      (labels.get? k = some 1 ↔ pyLower (pyStrip x) = "yes") ∧
      (¬ pyLower (pyStrip x) = "yes" → labels.get? k = some 0)) ∧
    is_fan_binary "Not Specified" = 0 := by
  have hl : labels = (vals.filterMap id).map is_fan_binary := by
    unfold isFanLabels at h2
    rw [h1] at h2
    exact (Option.some.inj h2).symm
  subst hl
  constructor
  · intro k x hx
    have hget : ((vals.filterMap id).map is_fan_binary).get? k
        = some (is_fan_binary x) := by
      rw [get?_map_eq, hx]
      rfl
    constructor
    · rw [hget]
      by_cases hc : pyLower (pyStrip x) = "yes"
      · simp [is_fan_binary, hc]
      · simp [is_fan_binary, hc]
    · intro hc
      rw [hget]
      simp [is_fan_binary, hc]
  · decide

/-- Witness for C9: concrete `is_fan` answers "Yes", " yes ", a missing
one and "No" give labels `1, 1, 0`. -/
theorem is_fan_binary_spec_witness :
    isFanValues dfFanW = some valsFanW ∧
    isFanLabels dfFanW = some labelsFanW ∧
    is_fan_binary "Not Specified" = 0 :=
  ⟨rfl, by decide, (is_fan_binary_spec dfFanW valsFanW labelsFanW rfl
    (by decide)).2⟩

end StarWarsSurvey
